import Mathlib

/-!
Shallow embedding of the image-optimization pipeline:
the request Normalizer (functions/url-rewrite/index.js, a CloudFront
function) and the Transformation Engine (functions/image-processing/index.js,
a Lambda handler), plus the earlier Lambda handler variant found in the
repository (src/unnamed/part_000).

JavaScript objects whose keys carry insertion order are modelled as
association lists; property access collects the last matching entry,
mirroring the last-write-wins semantics of object assignment. JavaScript
string truthiness is modelled as inequality with the empty string.
String.prototype.toLowerCase and String.prototype.split are modelled by
executable character-list functions (all separators used by the code are
single characters, and all strings the claims touch are ASCII).
-/

set_option autoImplicit false

namespace ImageOpt

/-- Model of JavaScript toLowerCase, as a map over the characters. -/
def jsToLower (s : String) : String := String.mk (s.data.map Char.toLower)

/-- Splitting a character list at every occurrence of a separator
character; the result always has at least one (possibly empty) chunk,
as JavaScript split does. -/
def splitChars (c : Char) : List Char → List (List Char)
  | [] => [[]]
  | x :: xs =>
    let rest := splitChars c xs
    if x = c then [] :: rest
    else
      match rest with
      | [] => [[x]]
      | h :: t => (x :: h) :: t

/-- Model of JavaScript split with a single-character separator. -/
def jsSplit (s : String) (c : Char) : List String :=
  (splitChars c s.data).map String.mk

/-! URL-rewrite CloudFront function (functions/url-rewrite/index.js). -/

/-- A CloudFront viewer request: uri plus query string. The query string is
an object mapping parameter names to records holding a value field; the
handler checks its truthiness, so absence is modelled with Option (an empty
object is truthy in JavaScript, hence some of the empty list). -/
structure CFRequest where
  uri : String
  querystring : Option (List (String × String))
  deriving DecidableEq, Repr

/-- ALLOWED_PRESETS array from functions/url-rewrite/index.js line 5. -/
def ALLOWED_PRESETS : List String :=
  ["thumb", "small", "medium", "large", "xlarge", "small_wide",
   "medium_wide", "large_wide", "xlarge_wide", "doordash"]

/-- Condition under which a query parameter contributes to
normalizedOperations: its lower-cased name dispatches to the preset case,
its value is truthy (nonempty), and the lower-cased value is a member of
ALLOWED_PRESETS (index.js lines 12-19). -/
def presetQualifies (kv : String × String) : Bool :=
  jsToLower kv.1 == "preset" && kv.2 != "" && ALLOWED_PRESETS.contains (jsToLower kv.2)

/-- The CloudFront function handler (functions/url-rewrite/index.js
lines 4-44). The forEach over Object.keys with repeated assignment to
normalizedOperations.preset is a left fold in which a qualifying parameter
overwrites the accumulator. -/
def urlRewriteHandler (request : CFRequest) : CFRequest :=
  let originalImagePath := request.uri
  match request.querystring with
  | some qs =>
    let normalizedPreset : Option String :=
      qs.foldl (fun acc kv => if presetQualifies kv then some (jsToLower kv.2) else acc) none
    match normalizedPreset with
    | some p => { uri := originalImagePath ++ "/" ++ ("preset=" ++ p), querystring := some [] }
    | none => { uri := originalImagePath ++ "/original", querystring := some [] }
  | none => { uri := originalImagePath ++ "/original", querystring := some [] }

/-- A query parameter as the spec claim describes an accepted one: name
lower-cases to preset and value lower-cases into the allow-list. -/
def presetParamAccepted (kv : String × String) : Bool :=
  jsToLower kv.1 == "preset" && ALLOWED_PRESETS.contains (jsToLower kv.2)

/-- The truthiness check on the raw value is implied by allow-list
membership of the lower-cased value, so the two acceptance predicates
coincide. -/
lemma presetQualifies_eq_accepted (kv : String × String) :
    presetQualifies kv = presetParamAccepted kv := by
  by_cases h : kv.2 = ""
  · simp [presetQualifies, presetParamAccepted, h]
    intro _
    decide
  · have h1 : (kv.2 != "") = true := by simp [h]
    simp [presetQualifies, presetParamAccepted, h1]

/-- Core fold lemma: when every qualifying parameter has the same
lower-cased value p, the accumulated preset is p when a qualifying
parameter exists and the initial accumulator otherwise. -/
lemma foldl_preset_eq (qs : List (String × String)) (p : String)
    (hall : ∀ kv ∈ qs, presetQualifies kv = true → jsToLower kv.2 = p) :
    ∀ acc : Option String,
      qs.foldl (fun acc kv => if presetQualifies kv then some (jsToLower kv.2) else acc) acc
        = if qs.any presetQualifies then some p else acc := by
  induction qs with
  | nil => intro acc; simp
  | cons kv rest ih =>
    intro acc
    have hrest : ∀ kv ∈ rest, presetQualifies kv = true → jsToLower kv.2 = p := by
      intro x hx hq; exact hall x (List.mem_cons_of_mem _ hx) hq
    by_cases hq : presetQualifies kv = true
    · have hv : jsToLower kv.2 = p := hall kv (List.mem_cons_self _ _) hq
      simp only [List.foldl_cons, List.any_cons, hq, if_true, Bool.true_or, hv]
      rw [ih hrest (some p)]
      by_cases hr : rest.any presetQualifies = true <;> simp [hr]
    · have hq' : presetQualifies kv = false := by
        cases hqv : presetQualifies kv
        · rfl
        · exact absurd hqv hq
      simp only [List.foldl_cons, List.any_cons, hq', if_false, Bool.false_or]
      exact ih hrest acc

/-- The two acceptance predicates are equal as functions. -/
lemma presetQualifies_funeq : presetQualifies = presetParamAccepted :=
  funext presetQualifies_eq_accepted

/-- Whatever the input, the handler stores the empty object in the
querystring field of the outgoing request (index.js line 42). -/
lemma urlRewrite_clears_querystring (r : CFRequest) :
    (urlRewriteHandler r).querystring = some [] := by
  rcases r with ⟨u, _ | qs⟩
  · rfl
  · unfold urlRewriteHandler
    simp only []
    split <;> rfl

/-- On a query-string list in which every accepted parameter lower-cases
to the same preset value, the handler rewrites to that preset descriptor. -/
lemma urlRewrite_on_accepted (uri p : String) (qs : List (String × String))
    (hex : qs.any presetParamAccepted = true)
    (hall : ∀ kv ∈ qs, presetParamAccepted kv = true → jsToLower kv.2 = p) :
    urlRewriteHandler ⟨uri, some qs⟩
      = ⟨uri ++ "/" ++ ("preset=" ++ p), some []⟩ := by
  have hall' : ∀ kv ∈ qs, presetQualifies kv = true → jsToLower kv.2 = p := by
    intro kv hm hq
    exact hall kv hm (by rw [← presetQualifies_eq_accepted]; exact hq)
  have hany : qs.any presetQualifies = true := by
    rw [presetQualifies_funeq]; exact hex
  unfold urlRewriteHandler
  simp only []
  rw [foldl_preset_eq qs p hall' none, hany]
  rfl

/-- C1: a request carrying a preset query parameter whose lower-cased name
is preset and whose lower-cased value is in the allow-list is rewritten to
originalPath/preset=p with p the lower-cased value; the inputs enter the
statement only through their lower-cased forms (casing independence), and
the second conjunct states stability under any reordering of the query
parameters. The hypothesis hall pins down the value when several
parameters qualify, since the claim speaks of one accepted value. -/
theorem normalizer_allowed_preset_rewrite (uri p : String) (qs : List (String × String))
    (hex : qs.any presetParamAccepted = true)
    (hall : ∀ kv ∈ qs, presetParamAccepted kv = true → jsToLower kv.2 = p) :
    (urlRewriteHandler ⟨uri, some qs⟩).uri = uri ++ "/" ++ ("preset=" ++ p)
    ∧ ∀ qs' : List (String × String), qs'.Perm qs →
        urlRewriteHandler ⟨uri, some qs'⟩ = urlRewriteHandler ⟨uri, some qs⟩ := by
  constructor
  · rw [urlRewrite_on_accepted uri p qs hex hall]
  · intro qs' hperm
    have hex' : qs'.any presetParamAccepted = true := by
      rw [List.any_eq_true] at hex ⊢
      obtain ⟨x, hx, hpx⟩ := hex
      exact ⟨x, hperm.mem_iff.mpr hx, hpx⟩
    have hall' : ∀ kv ∈ qs', presetParamAccepted kv = true → jsToLower kv.2 = p := by
      intro kv hm hq
      exact hall kv (hperm.mem_iff.mp hm) hq
    rw [urlRewrite_on_accepted uri p qs' hex' hall',
      urlRewrite_on_accepted uri p qs hex hall]

/-- Witness for C1: concrete request with mixed-casing name and value and a
second, unrecognized parameter. -/
theorem normalizer_allowed_preset_rewrite_witness :
    (urlRewriteHandler ⟨"/images/rio/1.jpeg", some [("x", "1"), ("PrEsEt", "THUMB")]⟩).uri
      = "/images/rio/1.jpeg" ++ "/" ++ ("preset=" ++ "thumb") :=
  (normalizer_allowed_preset_rewrite "/images/rio/1.jpeg" "thumb"
    [("x", "1"), ("PrEsEt", "THUMB")] (by decide) (by decide)).1

/-- C4 counterexample: feeding the output of the handler (whose query
string has been cleared to the empty object) back into the handler changes
the uri again: the empty query-string object is truthy, no operation is
accepted, and a second /original segment is appended. -/
theorem normalizer_not_idempotent_cex :
    (urlRewriteHandler (urlRewriteHandler ⟨"/images/rio/1.jpeg", none⟩)).uri
      ≠ (urlRewriteHandler ⟨"/images/rio/1.jpeg", none⟩).uri := by decide

/-- C4 amended: the Normalizer is not idempotent; re-applying the handler
to its own output always appends one further /original segment. -/
theorem normalizer_reapply_appends_original (r : CFRequest) :
    urlRewriteHandler (urlRewriteHandler r)
      = ⟨(urlRewriteHandler r).uri ++ "/original", some []⟩ := by
  have hq : (urlRewriteHandler r).querystring = some [] :=
    urlRewrite_clears_querystring r
  rcases he : urlRewriteHandler r with ⟨u, q⟩
  rw [he] at hq
  simp only [CFRequest.mk.injEq] at hq ⊢
  subst hq
  rfl

/-- C7: when no query parameter is accepted (wrong name or value outside
the allow-list), and likewise when the query string is absent, the handler
rewrites the uri to originalPath/original; and on every input the outgoing
query string is cleared. -/
theorem normalizer_unrecognized_to_original (uri : String) (qs : List (String × String))
    (h : ∀ kv ∈ qs, presetParamAccepted kv = false) :
    (urlRewriteHandler ⟨uri, some qs⟩).uri = uri ++ "/original"
    ∧ (urlRewriteHandler ⟨uri, none⟩).uri = uri ++ "/original"
    ∧ ∀ r : CFRequest, (urlRewriteHandler r).querystring = some [] := by
  refine ⟨?_, rfl, urlRewrite_clears_querystring⟩
  have hall : ∀ kv ∈ qs, presetQualifies kv = true → jsToLower kv.2 = "" := by
    intro kv hm hq
    rw [presetQualifies_eq_accepted] at hq
    rw [h kv hm] at hq
    exact absurd hq (by simp)
  have hany : qs.any presetQualifies = false := by
    rw [presetQualifies_funeq]
    rw [List.any_eq_false]
    intro x hx
    simp [h x hx]
  unfold urlRewriteHandler
  simp only []
  rw [foldl_preset_eq qs "" hall none, hany]
  rfl

/-- Witness for C7: a wrong-named parameter and a preset value outside the
allow-list. -/
theorem normalizer_unrecognized_to_original_witness :
    (urlRewriteHandler ⟨"/images/rio/1.jpeg", some [("foo", "bar"), ("preset", "huge")]⟩).uri
      = "/images/rio/1.jpeg" ++ "/original" :=
  (normalizer_unrecognized_to_original "/images/rio/1.jpeg"
    [("foo", "bar"), ("preset", "huge")] (by decide)).1

/-! Transformation Engine (functions/image-processing/index.js) and the
earlier handler variant (src/unnamed/part_000). Both are Lambda handlers
over the same event shape; the AWS S3 client and the Sharp image library
are external collaborators, modelled as explicit function parameters, so
every theorem below holds for an arbitrary store model and an arbitrary
deterministic image-transformation model. -/

/-- A stored S3 object: Body bytes (octets as naturals) plus ContentType. -/
structure S3Obj where
  body : List Nat
  contentType : String
  deriving DecidableEq, Repr

/-- Model of the S3 client: getObject by bucket and key may fail (none);
putObject by bucket and key either succeeds or throws (false). -/
structure World where
  getObject : String → String → Option S3Obj
  putObject : String → String → Bool

/-- Process environment of the Lambda (index.js lines 13-17): the
transformed-image bucket is optional, the code guards on its truthiness. -/
structure Env where
  originalImageBucketName : String
  transformedImageBucketName : Option String
  transformedImageCacheTTL : String
  secretKey : String
  logTiming : String
  deriving DecidableEq, Repr

structure HttpInfo where
  method : String
  path : String
  deriving DecidableEq, Repr

structure RequestContext where
  http : HttpInfo
  deriving DecidableEq, Repr

/-- A Lambda function URL event: headers object plus request context. -/
structure LambdaEvent where
  headers : List (String × String)
  requestContext : RequestContext
  deriving DecidableEq, Repr

/-- First argument of sendError; the code passes both the number 500 and
the string APPLICATION ERROR, so the argument is heterogeneous. -/
inductive StatusArg where
  | num (n : Nat)
  | str (s : String)
  deriving DecidableEq, Repr

structure RespHeaders where
  contentType : String
  cacheControl : String
  deriving DecidableEq, Repr

/-- A Lambda response object; error responses carry neither the
isBase64Encoded flag nor the headers object. -/
structure Response where
  statusCode : StatusArg
  body : String
  isBase64Encoded : Option Bool
  headers : Option RespHeaders
  deriving DecidableEq, Repr

/-- sendError of functions/image-processing/index.js lines 220-224: logs
and returns an object whose statusCode is the literal 200, discarding the
statusCode argument. -/
def sendError (_ : StatusArg) (body : String) : Response :=
  { statusCode := .num 200, body := body, isBase64Encoded := none, headers := none }

/-- sendError of src/unnamed/part_000 lines 203-207: propagates the
statusCode argument. -/
def sendErrorV3 (statusCode : StatusArg) (body : String) : Response :=
  { statusCode := statusCode, body := body, isBase64Encoded := none, headers := none }

/-- One attempted putObject call with its argument object. -/
structure PutRecord where
  bucket : String
  key : String
  body : List Nat
  contentType : String
  cacheControlMetadata : String
  deriving DecidableEq, Repr

/-- Handler outcome: the returned response plus the list of putObject
calls the handler attempted (whether or not the store accepted them). -/
structure HandlerResult where
  response : Response
  puts : List PutRecord
  deriving DecidableEq, Repr

/-- Resize options object: width and height, each possibly unset. -/
structure ResizeOptions where
  width : Option Nat
  height : Option Nat
  deriving DecidableEq, Repr

/-- Model of the Sharp pipeline of lines 54, 150, 181-184: input bytes,
resize options, toFormat target and quality produce output bytes, or fail
(the exception caught at line 185). The resize call always happens, since
an empty resizingOptions object is truthy at line 149; resizing with both
dimensions unset is the trivial resize. -/
def SharpModel : Type :=
  List Nat → ResizeOptions → String → Nat → Option (List Nat)

/-- Model of JavaScript parseInt on the plain decimal strings that occur
as quality values in the preset dispatch. -/
def parseIntD (s : String) : Nat :=
  s.data.foldl (fun n c => n * 10 + (c.toNat - 48)) 0

/-- Base64 alphabet used by Buffer.toString with the base64 encoding. -/
def b64Alpha : List Char :=
  "ABCDEFGHIJKLMNOPQRSTUVWXYZabcdefghijklmnopqrstuvwxyz0123456789+/".data

def b64Digit (n : Nat) : Char := b64Alpha.getD n 'A'

/-- Standard base64 of a byte list, with padding. -/
def base64Chunks : List Nat → List Char
  | [] => []
  | [a] => [b64Digit (a / 4), b64Digit (a % 4 * 16), '=', '=']
  | [a, b] => [b64Digit (a / 4), b64Digit (a % 4 * 16 + b / 16), b64Digit (b % 16 * 4), '=']
  | a :: b :: c :: rest =>
      b64Digit (a / 4) :: b64Digit (a % 4 * 16 + b / 16) ::
        b64Digit (b % 16 * 4 + c / 64) :: b64Digit (c % 64) :: base64Chunks rest

def base64String (bytes : List Nat) : String := String.mk (base64Chunks bytes)

/-- Operations segment of the request path: imagePathArray.pop() after
splitting on the path separator (index.js lines 36-38). -/
def lastSegment (path : String) : String := (jsSplit path '/').getLastD ""

/-- Original-image key: drop the popped last segment, shift away the
leading empty segment, and re-join (index.js lines 39-41). -/
def pathToKey (path : String) : String :=
  String.intercalate "/" (((jsSplit path '/').dropLast).drop 1)

/-- Object.fromEntries over split pairs (index.js line 58): each
comma-chunk is split at the equals signs; the key is element 0 and the
value element 1, which for a chunk with no equals sign is the absent
value undefined. -/
def parseOperations (seg : String) : List (String × Option String) :=
  (jsSplit seg ',').map (fun op =>
    let parts := jsSplit op '='
    (parts.headD "", parts.get? 1))

/-- JavaScript object property read on an object built by assignments in
list order: the last matching entry wins; absent keys and entries holding
undefined both read as undefined (none). -/
def jsGet (l : List (String × Option String)) (k : String) : Option String :=
  l.foldl (fun acc e => if e.1 == k then e.2 else acc) none

/-- Parameters resolved by the operations block: resize options, format
and quality, with the declared defaults jpeg and 80 (index.js
lines 62-65). -/
structure TransformParams where
  resizingOptions : ResizeOptions
  format : String
  quality : String
  deriving DecidableEq, Repr

def defaultParams : TransformParams :=
  { resizingOptions := { width := none, height := none }, format := "jpeg", quality := "80" }

/-- The switch on the preset value (index.js lines 67-147). Every branch
is written against the constant-valued ALLOWED_PRESETS object of
lines 18-32, so the case labels are the literal preset names; xlarge_wide
shares its statement block with default, both producing 2048 by 1152. -/
def presetDispatch (p : String) : TransformParams :=
  if p = "icon" then ⟨⟨some 32, some 32⟩, "jpeg", "10"⟩
  else if p = "thumb" then ⟨⟨some 50, some 50⟩, "jpeg", "20"⟩
  else if p = "large" then ⟨⟨some 1024, some 1024⟩, "jpeg", "80"⟩
  else if p = "medium" then ⟨⟨some 512, some 512⟩, "jpeg", "70"⟩
  else if p = "small" then ⟨⟨some 256, some 256⟩, "jpeg", "50"⟩
  else if p = "xlarge" then ⟨⟨some 2048, some 2048⟩, "jpeg", "90"⟩
  else if p = "icon_wide" then ⟨⟨some 32, some 18⟩, "jpeg", "10"⟩
  else if p = "thumb_wide" then ⟨⟨some 50, some 28⟩, "jpeg", "20"⟩
  else if p = "large_wide" then ⟨⟨some 1024, some 576⟩, "jpeg", "80"⟩
  else if p = "medium_wide" then ⟨⟨some 512, some 288⟩, "jpeg", "70"⟩
  else if p = "small_wide" then ⟨⟨some 256, some 144⟩, "jpeg", "50"⟩
  else if p = "doordash" then ⟨⟨some 1400, some 788⟩, "jpeg", "70"⟩
  else ⟨⟨some 2048, some 1152⟩, "jpeg", "80"⟩

/-- The switch of src/unnamed/part_000 lines 72-134: identical except that
the icon, icon_wide and thumb_wide cases are absent. -/
def presetDispatchV3 (p : String) : TransformParams :=
  if p = "thumb" then ⟨⟨some 50, some 50⟩, "jpeg", "20"⟩
  else if p = "large" then ⟨⟨some 1024, some 1024⟩, "jpeg", "80"⟩
  else if p = "medium" then ⟨⟨some 512, some 512⟩, "jpeg", "70"⟩
  else if p = "small" then ⟨⟨some 256, some 256⟩, "jpeg", "50"⟩
  else if p = "xlarge" then ⟨⟨some 2048, some 2048⟩, "jpeg", "90"⟩
  else if p = "large_wide" then ⟨⟨some 1024, some 576⟩, "jpeg", "80"⟩
  else if p = "medium_wide" then ⟨⟨some 512, some 288⟩, "jpeg", "70"⟩
  else if p = "small_wide" then ⟨⟨some 256, some 144⟩, "jpeg", "50"⟩
  else if p = "doordash" then ⟨⟨some 1400, some 788⟩, "jpeg", "70"⟩
  else ⟨⟨some 2048, some 1152⟩, "jpeg", "80"⟩

/-- The operations block guarded by the truthiness of
operationsJSON.preset (index.js line 66): a missing or empty preset value
leaves the defaults in place. -/
def resolveParams (ops : List (String × Option String)) : TransformParams :=
  match jsGet ops "preset" with
  | some p => if p = "" then defaultParams else presetDispatch p
  | none => defaultParams

def resolveParamsV3 (ops : List (String × Option String)) : TransformParams :=
  match jsGet ops "preset" with
  | some p => if p = "" then defaultParams else presetDispatchV3 p
  | none => defaultParams

/-- The format switch of index.js lines 154-180, which overwrites the
fetched content type in every branch. -/
def contentTypeForFormat (format : String) : String :=
  if format = "jpeg" then "image/jpeg"
  else if format = "jpg" then "image/jpg"
  else if format = "gif" then "image/gif"
  else if format = "webp" then "image/webp"
  else if format = "png" then "image/png"
  else if format = "avif" then "image/avif"
  else "image/jpeg"

/-- The Lambda handler of functions/image-processing/index.js lines
34-218. Timing instrumentation (performance.now, timingLog, the LOG_TIMING
console.log) and the unused imageMetadata read are pure logging with no
effect on the result and are not represented. The putObject call inside
the try of lines 192-204 is recorded as an attempted write; its failure is
swallowed by the catch of lines 202-204, whose sendError return value is
discarded, so the response never depends on the write outcome. -/
def imageHandler (env : Env) (sharp : SharpModel) (world : World)
    (event : LambdaEvent) : HandlerResult :=
  let operationsPart := lastSegment event.requestContext.http.path
  let originalImagePath := pathToKey event.requestContext.http.path
  match world.getObject env.originalImageBucketName originalImagePath with
  | none => ⟨sendError (.num 500) "error downloading original image", []⟩
  | some originalImage =>
    let operationsJSON := parseOperations operationsPart
    let params := resolveParams operationsJSON
    match sharp originalImage.body params.resizingOptions params.format
        (parseIntD params.quality) with
    | none => ⟨sendError (.num 500) "error transforming image", []⟩
    | some transformedImage =>
      let contentType := contentTypeForFormat params.format
      let puts : List PutRecord :=
        match env.transformedImageBucketName with
        | some bucket =>
            [⟨bucket, originalImagePath ++ "/" ++ operationsPart,
              transformedImage, contentType, env.transformedImageCacheTTL⟩]
        | none => []
      ⟨{ statusCode := .num 200,
         body := base64String transformedImage,
         isBase64Encoded := some true,
         headers := some ⟨contentType, env.transformedImageCacheTTL⟩ }, puts⟩

/-- Header object read with last-write-wins, as jsGet but over plain
string values. -/
def headerLookup (hs : List (String × String)) (k : String) : Option String :=
  hs.foldl (fun acc e => if e.1 == k then some e.2 else acc) none

/-- The access check of src/unnamed/part_000 line 38: the request passes
iff the x-origin-secret-header value is truthy and strictly equals the
configured secret. -/
def v3Authorized (env : Env) (event : LambdaEvent) : Bool :=
  match headerLookup event.headers "x-origin-secret-header" with
  | none => false
  | some v => v != "" && v == env.secretKey

/-- The Lambda handler of src/unnamed/part_000 lines 36-201: the same
pipeline preceded by the shared-secret check and the GET check, with the
reduced preset switch and the statusCode-propagating sendError. -/
def imageHandlerV3 (env : Env) (sharp : SharpModel) (world : World)
    (event : LambdaEvent) : HandlerResult :=
  if !(v3Authorized env event) then
    ⟨sendErrorV3 (.num 403) "Request unauthorized", []⟩
  else if !(event.requestContext.http.method == "GET") then
    ⟨sendErrorV3 (.num 400) "Only GET method is supported", []⟩
  else
    let operationsPart := lastSegment event.requestContext.http.path
    let originalImagePath := pathToKey event.requestContext.http.path
    match world.getObject env.originalImageBucketName originalImagePath with
    | none => ⟨sendErrorV3 (.num 500) "error downloading original image", []⟩
    | some originalImage =>
      let operationsJSON := parseOperations operationsPart
      let params := resolveParamsV3 operationsJSON
      match sharp originalImage.body params.resizingOptions params.format
          (parseIntD params.quality) with
      | none => ⟨sendErrorV3 (.num 500) "error transforming image", []⟩
      | some transformedImage =>
        let contentType := contentTypeForFormat params.format
        let puts : List PutRecord :=
          match env.transformedImageBucketName with
          | some bucket =>
              [⟨bucket, originalImagePath ++ "/" ++ operationsPart,
                transformedImage, contentType, env.transformedImageCacheTTL⟩]
          | none => []
        ⟨{ statusCode := .num 200,
           body := base64String transformedImage,
           isBase64Encoded := some true,
           headers := some ⟨contentType, env.transformedImageCacheTTL⟩ }, puts⟩

/-- C2: when fetching the original object fails, the handler returns the
sendError failure response for the download error and attempts no cache
write; no transformed bytes appear anywhere in the result (the body is
the fixed error message, with no base64 flag and no headers). -/
theorem engine_source_fetch_failure (env : Env) (sharp : SharpModel)
    (world : World) (event : LambdaEvent)
    (h : world.getObject env.originalImageBucketName
        (pathToKey event.requestContext.http.path) = none) :
    imageHandler env sharp world event
      = ⟨sendError (.num 500) "error downloading original image", []⟩ := by
  unfold imageHandler
  simp only [h]

/-- Witness for C2: a store with no objects, the path of the spec
scenario. -/
theorem engine_source_fetch_failure_witness :
    imageHandler
      ⟨"original-images", some "transformed-images", "max-age=31622400", "s3cret", "false"⟩
      (fun _ _ _ _ => some []) ⟨fun _ _ => none, fun _ _ => true⟩
      ⟨[], ⟨⟨"GET", "/images/rio/1.jpeg/preset=doordash"⟩⟩⟩
      = ⟨sendError (.num 500) "error downloading original image", []⟩ :=
  engine_source_fetch_failure _ _ _ _ rfl

/-- C3: with the secondary store configured and the fetch and transform
succeeding, the handler attempts the cache write, and even when that write
fails in the store the returned response is statusCode 200 carrying the
base64-encoded transformed bytes and the resolved content type; the
response expression never consults the write outcome. -/
theorem engine_cache_write_best_effort (env : Env) (sharp : SharpModel)
    (world : World) (event : LambdaEvent) (bucket : String) (obj : S3Obj)
    (bytes : List Nat)
    (hbucket : env.transformedImageBucketName = some bucket)
    (hget : world.getObject env.originalImageBucketName
        (pathToKey event.requestContext.http.path) = some obj)
    (hsharp : sharp obj.body
        (resolveParams (parseOperations (lastSegment event.requestContext.http.path))).resizingOptions
        (resolveParams (parseOperations (lastSegment event.requestContext.http.path))).format
        (parseIntD (resolveParams (parseOperations (lastSegment event.requestContext.http.path))).quality)
        = some bytes)
    (_hput : world.putObject bucket
        (pathToKey event.requestContext.http.path ++ "/"
          ++ lastSegment event.requestContext.http.path) = false) :
    imageHandler env sharp world event
      = ⟨{ statusCode := .num 200,
           body := base64String bytes,
           isBase64Encoded := some true,
           headers := some
             ⟨contentTypeForFormat
               (resolveParams (parseOperations (lastSegment event.requestContext.http.path))).format,
              env.transformedImageCacheTTL⟩ },
         [⟨bucket,
           pathToKey event.requestContext.http.path ++ "/"
             ++ lastSegment event.requestContext.http.path,
           bytes,
           contentTypeForFormat
             (resolveParams (parseOperations (lastSegment event.requestContext.http.path))).format,
           env.transformedImageCacheTTL⟩]⟩ := by
  unfold imageHandler
  simp only [hget, hsharp, hbucket]

/-- Witness for C3: concrete environment and a store whose putObject
always fails. -/
theorem engine_cache_write_best_effort_witness :
    imageHandler
      ⟨"original-images", some "transformed-images", "max-age=31622400", "s3cret", "false"⟩
      (fun _ _ _ _ => some [0, 1, 2])
      ⟨fun _ _ => some ⟨[9, 9], "image/png"⟩, fun _ _ => false⟩
      ⟨[], ⟨⟨"GET", "/images/rio/1.jpeg/original"⟩⟩⟩
      = ⟨{ statusCode := .num 200,
           body := base64String [0, 1, 2],
           isBase64Encoded := some true,
           headers := some
             ⟨contentTypeForFormat
               (resolveParams (parseOperations (lastSegment "/images/rio/1.jpeg/original"))).format,
              "max-age=31622400"⟩ },
         [⟨"transformed-images",
           pathToKey "/images/rio/1.jpeg/original" ++ "/"
             ++ lastSegment "/images/rio/1.jpeg/original",
           [0, 1, 2],
           contentTypeForFormat
             (resolveParams (parseOperations (lastSegment "/images/rio/1.jpeg/original"))).format,
           "max-age=31622400"⟩]⟩ :=
  engine_cache_write_best_effort _ _ _ _ "transformed-images" ⟨[9, 9], "image/png"⟩
    [0, 1, 2] rfl rfl rfl rfl

/-- C5: on the sentinel descriptor original, and in general whenever the
parsed descriptor has no preset entry, the resolved parameters are the
defaults: no resize dimensions, format jpeg, quality 80; consequently the
handler drives the image pipeline exactly as it would a pipeline invoked
with no resize, jpeg and quality 80. -/
theorem engine_default_policy (seg : String)
    (h : seg = "original" ∨ jsGet (parseOperations seg) "preset" = none) :
    resolveParams (parseOperations seg) = defaultParams
    ∧ defaultParams.resizingOptions = ⟨none, none⟩
    ∧ defaultParams.format = "jpeg"
    ∧ parseIntD defaultParams.quality = 80
    ∧ ∀ (env : Env) (sharp : SharpModel) (world : World) (event : LambdaEvent),
        lastSegment event.requestContext.http.path = seg →
        imageHandler env sharp world event
          = imageHandler env (fun b _ _ _ => sharp b ⟨none, none⟩ "jpeg" 80) world event := by
  have hres : resolveParams (parseOperations seg) = defaultParams := by
    rcases h with h | h
    · rw [h]; decide
    · unfold resolveParams
      rw [h]
  refine ⟨hres, rfl, rfl, rfl, ?_⟩
  intro env sharp world event hpath
  unfold imageHandler
  simp only [hpath, hres]
  rfl

/-- Witness for C5 at the sentinel descriptor. -/
theorem engine_default_policy_witness :
    resolveParams (parseOperations "original") = defaultParams :=
  (engine_default_policy "original" (Or.inl rfl)).1

/-- C6 counterexample: the format switch maps jpg to image/jpg, not to
image/jpeg as the claim states. -/
theorem content_type_jpg_cex : contentTypeForFormat "jpg" ≠ "image/jpeg" := by
  decide

/-- C6 amended: the mapping is total and fixed, with jpeg to image/jpeg,
jpg to image/jpg, gif, webp, png and avif to their MIME names, and every
other format string falling back to image/jpeg. -/
theorem content_type_mapping_amended :
    contentTypeForFormat "jpeg" = "image/jpeg"
    ∧ contentTypeForFormat "jpg" = "image/jpg"
    ∧ contentTypeForFormat "gif" = "image/gif"
    ∧ contentTypeForFormat "webp" = "image/webp"
    ∧ contentTypeForFormat "png" = "image/png"
    ∧ contentTypeForFormat "avif" = "image/avif"
    ∧ ∀ f : String,
        f ∉ (["jpeg", "jpg", "gif", "webp", "png", "avif"] : List String) →
        contentTypeForFormat f = "image/jpeg" := by
  refine ⟨rfl, rfl, rfl, rfl, rfl, rfl, ?_⟩
  intro f hf
  simp only [List.mem_cons, List.not_mem_nil, or_false, not_or] at hf
  obtain ⟨h1, h2, h3, h4, h5, h6⟩ := hf
  simp [contentTypeForFormat, h1, h2, h3, h4, h5, h6]

/-- Witness for C6 amended, instantiating the fallback clause at an
unrecognized format. -/
theorem content_type_mapping_amended_witness :
    ("bmp" : String) ∉ (["jpeg", "jpg", "gif", "webp", "png", "avif"] : List String)
    ∧ contentTypeForFormat "bmp" = "image/jpeg" :=
  ⟨by decide, content_type_mapping_amended.2.2.2.2.2.2 "bmp" (by decide)⟩

/-- The preset table as the explicit association of case labels to their
statement blocks in the switch of index.js lines 67-147; xlarge_wide has
its own case label, whose shared statement block sets 2048 by 1152. -/
def presetTable : List (String × TransformParams) :=
  [("icon", ⟨⟨some 32, some 32⟩, "jpeg", "10"⟩),
   ("thumb", ⟨⟨some 50, some 50⟩, "jpeg", "20"⟩),
   ("large", ⟨⟨some 1024, some 1024⟩, "jpeg", "80"⟩),
   ("medium", ⟨⟨some 512, some 512⟩, "jpeg", "70"⟩),
   ("small", ⟨⟨some 256, some 256⟩, "jpeg", "50"⟩),
   ("xlarge", ⟨⟨some 2048, some 2048⟩, "jpeg", "90"⟩),
   ("icon_wide", ⟨⟨some 32, some 18⟩, "jpeg", "10"⟩),
   ("thumb_wide", ⟨⟨some 50, some 28⟩, "jpeg", "20"⟩),
   ("large_wide", ⟨⟨some 1024, some 576⟩, "jpeg", "80"⟩),
   ("medium_wide", ⟨⟨some 512, some 288⟩, "jpeg", "70"⟩),
   ("small_wide", ⟨⟨some 256, some 144⟩, "jpeg", "50"⟩),
   ("doordash", ⟨⟨some 1400, some 788⟩, "jpeg", "70"⟩),
   ("xlarge_wide", ⟨⟨some 2048, some 1152⟩, "jpeg", "80"⟩)]

/-- C8: every preset name in the Normalizer allow-list has its own entry
among the case labels of the Transformation Engine switch, that entry
agrees with the dispatch function embedded from the switch, and it fixes
concrete width and height (format and quality are concrete string fields
of the entry). -/
theorem preset_allowlist_covered :
    ∀ p ∈ ALLOWED_PRESETS,
      (presetTable.find? (fun e => e.1 == p)).map Prod.snd = some (presetDispatch p)
      ∧ (presetDispatch p).resizingOptions.width.isSome = true
      ∧ (presetDispatch p).resizingOptions.height.isSome = true := by
  decide

/-- Witness for C8 at the doordash preset. -/
theorem preset_allowlist_covered_witness :
    (presetTable.find? (fun e => e.1 == "doordash")).map Prod.snd
      = some (presetDispatch "doordash") :=
  (preset_allowlist_covered "doordash" (by decide)).1

/-- C9: the handler of functions/image-processing/index.js returns
statusCode 200 on the success path and on every caught error path alike,
because its sendError discards the statusCode argument and hard-codes the
literal 200. -/
theorem engine_always_status_200 :
    (∀ (env : Env) (sharp : SharpModel) (world : World) (event : LambdaEvent),
        (imageHandler env sharp world event).response.statusCode = .num 200)
    ∧ ∀ (c : StatusArg) (b : String), (sendError c b).statusCode = .num 200 := by
  constructor
  · intro env sharp world event
    unfold imageHandler
    dsimp only
    split
    · rfl
    · split
      · rfl
      · rfl
  · intro c b
    rfl

/-- The two preset resolutions agree on every descriptor the Normalizer
can emit: the sentinel original and preset=p for p in the allow-list. -/
lemma resolve_agree_on_allowed (seg : String)
    (hseg : seg = "original" ∨ ∃ p ∈ ALLOWED_PRESETS, seg = "preset=" ++ p) :
    resolveParams (parseOperations seg) = resolveParamsV3 (parseOperations seg) := by
  rcases hseg with h | ⟨p, hp, h⟩
  · rw [h]; decide
  · rw [h]
    simp only [ALLOWED_PRESETS, List.mem_cons, List.not_mem_nil, or_false] at hp
    rcases hp with rfl | rfl | rfl | rfl | rfl | rfl | rfl | rfl | rfl | rfl <;> decide

/-- C10: for an authorized GET request whose final path segment is the
sentinel original or preset= followed by a name of the Normalizer
allow-list, the two Transformation Engine versions return the same body
(the base64 transformed bytes computed by the shared store and image
models), the same base64 flag and the same headers object, hence the same
Content-Type and Cache-Control. -/
theorem engines_agree_on_allowed_paths (env : Env) (sharp : SharpModel)
    (world : World) (event : LambdaEvent)
    (hauth : v3Authorized env event = true)
    (hmethod : event.requestContext.http.method = "GET")
    (hseg : lastSegment event.requestContext.http.path = "original"
      ∨ ∃ p ∈ ALLOWED_PRESETS,
          lastSegment event.requestContext.http.path = "preset=" ++ p) :
    (imageHandler env sharp world event).response.body
        = (imageHandlerV3 env sharp world event).response.body
    ∧ (imageHandler env sharp world event).response.isBase64Encoded
        = (imageHandlerV3 env sharp world event).response.isBase64Encoded
    ∧ (imageHandler env sharp world event).response.headers
        = (imageHandlerV3 env sharp world event).response.headers := by
  have hres := resolve_agree_on_allowed _ hseg
  unfold imageHandler imageHandlerV3
  simp only [hauth, hmethod, Bool.not_true, Bool.false_eq_true, if_false, beq_self_eq_true]
  rcases hG : world.getObject env.originalImageBucketName
      (pathToKey event.requestContext.http.path) with _ | obj
  · simp only [hG]
    exact ⟨rfl, rfl, rfl⟩
  · simp only [hG, hres]
    rcases hS : sharp obj.body
        (resolveParamsV3 (parseOperations (lastSegment event.requestContext.http.path))).resizingOptions
        (resolveParamsV3 (parseOperations (lastSegment event.requestContext.http.path))).format
        (parseIntD (resolveParamsV3 (parseOperations (lastSegment event.requestContext.http.path))).quality)
        with _ | bytes
    · simp only [hS]
      refine ⟨?_, ?_, ?_⟩ <;> trivial
    · simp only [hS]
      refine ⟨?_, ?_, ?_⟩ <;> trivial

/-- Witness for C10: concrete authorized GET request for the doordash
preset, over a one-object store. -/
theorem engines_agree_on_allowed_paths_witness :
    (imageHandler
        ⟨"original-images", some "transformed-images", "max-age=31622400", "s3cret", "false"⟩
        (fun b r f q => some (q :: b ++ [r.width.getD 0, r.height.getD 0, f.length]))
        ⟨fun _ _ => some ⟨[7], "image/png"⟩, fun _ _ => true⟩
        ⟨[("x-origin-secret-header", "s3cret")],
          ⟨⟨"GET", "/images/rio/1.jpeg/preset=doordash"⟩⟩⟩).response.body
      = (imageHandlerV3
        ⟨"original-images", some "transformed-images", "max-age=31622400", "s3cret", "false"⟩
        (fun b r f q => some (q :: b ++ [r.width.getD 0, r.height.getD 0, f.length]))
        ⟨fun _ _ => some ⟨[7], "image/png"⟩, fun _ _ => true⟩
        ⟨[("x-origin-secret-header", "s3cret")],
          ⟨⟨"GET", "/images/rio/1.jpeg/preset=doordash"⟩⟩⟩).response.body :=
  (engines_agree_on_allowed_paths _ _ _ _ (by decide) rfl
    (Or.inr ⟨"doordash", by decide, by decide⟩)).1

end ImageOpt
